import Mathlib

/-!
Verification development for the comprehensive Swedish business scraper
(single source file main.py).  The scraper walks listing pages of several
brokerage sites, deduplicates candidate detail URLs, bounds detail
fetches, extracts contact information through ordered regex cascades and
aggregates a coverage report.  Network fetches and the rendering engine
are modelled as oracles; string and regex processing is embedded
faithfully below.
-/

/-- Whitespace characters recognised by the Python str.strip, str.split
and the regex class backslash-s (ASCII part, which is all that the
scraper inputs exercise). -/
def pyWs (c : Char) : Bool :=
  c == ' ' || c == '\t' || c == '\n' || c == '\r' || c == '\x0b' || c == '\x0c'

/-- Models Python str.strip on a character list: drop whitespace from
both ends. -/
def pyStripL (l : List Char) : List Char :=
  ((l.dropWhile pyWs).reverse.dropWhile pyWs).reverse

/-- Models Python str.strip. -/
def pyStrip (s : String) : String := String.mk (pyStripL s.toList)

/-- Models str.startswith by character lists (kernel-reducible form of
String.startsWith). -/
def strStartsWith (s pre : String) : Bool := pre.toList.isPrefixOf s.toList

/-- Models str.endswith by character lists. -/
def strEndsWith (s suf : String) : Bool :=
  suf.toList.reverse.isPrefixOf s.toList.reverse

/-- Models the Python substring test (sub in s) on character lists. -/
def listContains (sub : List Char) : List Char → Bool
  | [] => sub.isEmpty
  | c :: cs => sub.isPrefixOf (c :: cs) || listContains sub cs

/-- Models Python s.split(sep)[0]: the characters before the first
occurrence of the separator (the whole list when the separator is
absent). -/
def takeUntilSub (sep : List Char) : List Char → List Char
  | [] => []
  | c :: cs => if sep.isPrefixOf (c :: cs) then [] else c :: takeUntilSub sep cs

/-- The characters strictly after the first occurrence of sep, or none
when sep does not occur. -/
def dropThroughSub (sep : List Char) : List Char → Option (List Char)
  | [] => if sep.isEmpty then some [] else none
  | c :: cs =>
    if sep.isPrefixOf (c :: cs) then some ((c :: cs).drop sep.length)
    else dropThroughSub sep cs

/-- Models Python str.split with no argument: split on whitespace runs,
dropping empty pieces.  The first argument is the reversed current
token. -/
def pySplitWsAux (acc : List Char) : List Char → List (List Char)
  | [] => if acc.isEmpty then [] else [acc.reverse]
  | c :: cs =>
    if pyWs c then
      if acc.isEmpty then pySplitWsAux [] cs
      else acc.reverse :: pySplitWsAux [] cs
    else pySplitWsAux (c :: acc) cs

/-- Models Python str.split() on strings. -/
def pySplitWs (s : String) : List String :=
  (pySplitWsAux [] s.toList).map String.mk

/-- Replacement loop with a structural fuel argument: at a position
where the non-empty needle is a prefix, emit the replacement and skip
the needle, otherwise keep one character.  Each step consumes at least
one character, so fuel equal to the list length always suffices. -/
def pyReplaceFuel (old new : List Char) : Nat → List Char → List Char
  | 0, l => l
  | _ + 1, [] => []
  | fuel + 1, c :: cs =>
    if old ≠ [] ∧ old.isPrefixOf (c :: cs) then
      new ++ pyReplaceFuel old new fuel ((c :: cs).drop old.length)
    else c :: pyReplaceFuel old new fuel cs

/-- Models Python str.replace(old, new) on character lists: replace all
non-overlapping occurrences, scanning left to right. -/
def pyReplaceL (old new l : List Char) : List Char :=
  pyReplaceFuel old new l.length l

/-- Models Python str.replace(old, new). -/
def pyReplace (s old new : String) : String :=
  String.mk (pyReplaceL old.toList new.toList s.toList)

/-- Dropping a prefix by predicate never lengthens a list. -/
theorem lengthDropWhileLe {α : Type} (p : α → Bool) (l : List α) :
    (l.dropWhile p).length ≤ l.length := by
  induction l with
  | nil => simp [List.dropWhile]
  | cons a l ih =>
    by_cases h : p a = true
    · simp [List.dropWhile, h]
      omega
    · simp [List.dropWhile, h]

/-- State machine modelling BeautifulSoup get_text on simple markup:
characters inside angle-bracket tags are removed, text is concatenated.
The flag records whether the scan is currently inside a tag. -/
def stripTagsAux : Bool → List Char → List Char
  | _, [] => []
  | false, '<' :: cs => stripTagsAux true cs
  | false, c :: cs => c :: stripTagsAux false cs
  | true, '>' :: cs => stripTagsAux false cs
  | true, _ :: cs => stripTagsAux true cs

/-- Models soup.get_text(): all text outside tags. -/
def stripTags (html : String) : String := String.mk (stripTagsAux false html.toList)

/-- Models soup.find applied to the title tag followed by get_text: the
text between the first title open tag and the following close tag; none
when the page has no title element. -/
def findTitle (html : String) : Option String :=
  (dropThroughSub "<title>".toList html.toList).map
    (fun rest => String.mk (takeUntilSub "</title>".toList rest))

/-- Models BeautifulSoup find_all over anchors: the values of href
attributes in document order (the scraper inputs only carry href
attributes on anchor tags). -/
def extractHrefsAux : List Char → List String
  | [] => []
  | c :: cs =>
    if "href=\"".toList.isPrefixOf (c :: cs) then
      let rest := (c :: cs).drop 6
      String.mk (rest.takeWhile (· ≠ '"')) ::
        extractHrefsAux (rest.dropWhile (· ≠ '"'))
    else extractHrefsAux cs
termination_by l => l.length
decreasing_by
  · have h1 : (((c :: cs).drop 6).dropWhile (fun x => x ≠ '"')).length ≤
        ((c :: cs).drop 6).length := lengthDropWhileLe _ _
    simp only [List.length_drop, List.length_cons] at *
    omega
  · simp

/-- Hrefs appearing in a listing page. -/
def extractHrefs (html : String) : List String := extractHrefsAux html.toList

/-- Scheme and host of an absolute URL (supports the http and https
schemes used by the scraper). -/
def urlOrigin (u : String) : String :=
  if strStartsWith u "https://" then
    "https://" ++ String.mk ((u.toList.drop 8).takeWhile (· ≠ '/'))
  else if strStartsWith u "http://" then
    "http://" ++ String.mk ((u.toList.drop 7).takeWhile (· ≠ '/'))
  else u

/-- The base URL up to and including the last slash of its path, used
for resolving relative references. -/
def urlBaseDir (u : String) : String :=
  let o := urlOrigin u
  let path := (u.toList.drop o.length)
  if listContains ['/'] path then
    o ++ String.mk ((path.reverse.dropWhile (· ≠ '/')).reverse)
  else o ++ "/"

/-- Models urllib.parse.urljoin for the href shapes produced by the
scraped sites: scheme-absolute hrefs pass through, root-relative hrefs
join the origin of the base, other hrefs replace the last path segment
of the base. -/
def urljoin (base href : String) : String :=
  if strStartsWith href "http://" || strStartsWith href "https://" then href
  else if strStartsWith href "/" then urlOrigin base ++ href
  else urlBaseDir base ++ href

/-!  A small backtracking regex engine covering exactly the constructs
used by the contact-extraction patterns of main.py: literals, greedy
bounded or unbounded character-class repetition, group marks, and the
two-way alternation of an international prefix against a leading-zero
area code.  Matching follows Python re semantics: leftmost starting
position wins and, at a position, greedy quantifiers backtrack. -/

/-- One element of an embedded regular expression. -/
inductive RE where
  /-- A literal character sequence. -/
  | lit (l : List Char)
  /-- Greedy repetition of a character class, between lo and hi times
  (hi none meaning unbounded). -/
  | cls (p : Char → Bool) (lo : Nat) (hi : Option Nat)
  /-- A group boundary: consumes nothing, records the current offset. -/
  | mark
  /-- The alternation of the literal +46 against a zero and two digits,
  each consuming exactly three characters, the international branch
  preferred. -/
  | phoneTok

/-- Backtracking loop for greedy class repetition: try consuming k
characters, then k-1, down to lo, calling the continuation on the rest.
The caller guarantees that the first k characters satisfy the class. -/
def classTry (next : List Char → Option (List Char × List Nat)) (lo : Nat)
    (cs : List Char) : Nat → Option (List Char × List Nat)
  | 0 =>
    if 0 < lo then none
    else
      match next (cs.drop 0) with
      | some (m, ks) => some (cs.take 0 ++ m, ks.map (· + 0))
      | none => none
  | k + 1 =>
    if k + 1 < lo then none
    else
      match next (cs.drop (k + 1)) with
      | some (m, ks) => some (cs.take (k + 1) ++ m, ks.map (· + (k + 1)))
      | none => classTry next lo cs k

/-- Matches a pattern at the start of the input, returning the consumed
characters together with the offsets of the group marks.  Greedy
backtracking as in Python re. -/
def matchRE : List RE → List Char → Option (List Char × List Nat)
  | [], _ => some ([], [])
  | .mark :: ps, cs => (matchRE ps cs).map (fun r => (r.1, 0 :: r.2))
  | .lit l :: ps, cs =>
    if l.isPrefixOf cs then
      (matchRE ps (cs.drop l.length)).map
        (fun r => (l ++ r.1, r.2.map (· + l.length)))
    else none
  | .cls p lo hi :: ps, cs =>
    let avail := (cs.takeWhile p).length
    let kmax := match hi with | some h => min h avail | none => avail
    classTry (matchRE ps) lo cs kmax
  | .phoneTok :: ps, cs =>
    let intl :=
      if ['+', '4', '6'].isPrefixOf cs then
        (matchRE ps (cs.drop 3)).map
          (fun r => (['+', '4', '6'] ++ r.1, r.2.map (· + 3)))
      else none
    match intl with
    | some r => some r
    | none =>
      match cs with
      | '0' :: d1 :: d2 :: rest =>
        if d1.isDigit && d2.isDigit then
          (matchRE ps rest).map
            (fun r => ('0' :: d1 :: d2 :: r.1, r.2.map (· + 3)))
        else none
      | _ => none

/-- Models re.search: try the pattern at each position, leftmost first. -/
def searchFrom (p : List RE) : List Char → Option (List Char × List Nat)
  | [] => matchRE p []
  | c :: cs =>
    match matchRE p (c :: cs) with
    | some r => some r
    | none => searchFrom p cs

/-- Models re.search followed by group(0) (here always the whole match,
used for the phone and email patterns whose group 1 spans the whole
pattern). -/
def reSearch (p : List RE) (s : String) : Option String :=
  (searchFrom p s.toList).map (fun r => String.mk r.1)

/-- Models re.search followed by group(1) for patterns carrying exactly
two marks around the group. -/
def reSearchGroup1 (p : List RE) (s : String) : Option String :=
  (searchFrom p s.toList).bind
    (fun r =>
      match r.2 with
      | [i, j] => some (String.mk ((r.1.drop i).take (j - i)))
      | _ => none)

/-!  The concrete patterns of the contact extractor
(main.py, function named underscore-extract-bolagsplatsen-contact). -/

/-- The separator class of the phone patterns: whitespace or hyphen. -/
def sepCls (c : Char) : Bool := pyWs c || c == '-'

/-- An optional separator, greedy. -/
def sepOpt : RE := .cls sepCls 0 (some 1)

/-- Exactly n digits. -/
def digN (n : Nat) : RE := .cls Char.isDigit n (some n)

/-- First phone pattern: international prefix +46, then 1 to 3 digits,
then groups of 3, 2 and 2 digits, optional separators between. -/
def phonePat1 : List RE :=
  [.lit ['+', '4', '6'], sepOpt, .cls Char.isDigit 1 (some 3), sepOpt,
   digN 3, sepOpt, digN 2, sepOpt, digN 2]

/-- Second phone pattern: leading zero, 2 to 3 digits, then groups of
3, 2 and 2 digits. -/
def phonePat2 : List RE :=
  [.lit ['0'], .cls Char.isDigit 2 (some 3), sepOpt,
   digN 3, sepOpt, digN 2, sepOpt, digN 2]

/-- Third phone pattern: bare grouped digits 3-3-2-2. -/
def phonePat3 : List RE :=
  [digN 3, sepOpt, digN 3, sepOpt, digN 2, sepOpt, digN 2]

/-- Uppercase letter class of the name patterns (ASCII plus the Swedish
letters listed in the source). -/
def upperSw (c : Char) : Bool :=
  c.isUpper || c == 'Å' || c == 'Ä' || c == 'Ö' || c == 'Ü'

/-- Lowercase letter class of the name patterns. -/
def lowerSw (c : Char) : Bool :=
  c.isLower || c == 'å' || c == 'ä' || c == 'ö' || c == 'ü'

/-- The capitalized two-word name group: an uppercase letter, lowercase
letters, whitespace, an uppercase letter, lowercase letters, enclosed in
group marks. -/
def nameGroup : List RE :=
  [.mark, .cls upperSw 1 (some 1), .cls lowerSw 1 none, .cls pyWs 1 none,
   .cls upperSw 1 (some 1), .cls lowerSw 1 none, .mark]

/-- First name pattern: the label Kontakt with optional colon and
whitespace, then the name group. -/
def namePat1 : List RE :=
  [.lit "Kontakt".toList, .cls (fun c => c == ':') 0 (some 1),
   .cls pyWs 0 none] ++ nameGroup

/-- Second name pattern: the label Mäklare, then the name group. -/
def namePat2 : List RE :=
  [.lit "Mäklare".toList, .cls (fun c => c == ':') 0 (some 1),
   .cls pyWs 0 none] ++ nameGroup

/-- Third name pattern: the name group followed by optional whitespace
or commas and a phone-like token (+46 or zero and two digits). -/
def namePat3 : List RE :=
  nameGroup ++ [.cls (fun c => pyWs c || c == ',') 0 none, .phoneTok]

/-- Local part class of the email pattern. -/
def emailLocalCls (c : Char) : Bool :=
  c.isAlpha || c.isDigit || c == '.' || c == '_' || c == '%' || c == '+' || c == '-'

/-- Domain class of the email pattern. -/
def emailDomainCls (c : Char) : Bool :=
  c.isAlpha || c.isDigit || c == '.' || c == '-'

/-- The email pattern: local part, at sign, domain, dot, at least two
letters. -/
def emailPat : List RE :=
  [.cls emailLocalCls 1 none, .lit ['@'], .cls emailDomainCls 1 none,
   .lit ['.'], .cls Char.isAlpha 2 none]

/-- The phone cascade of the contact extractor: the three patterns are
tried in order on the page text and the first matching pattern supplies
the stripped phone number; later patterns are not tried. -/
def phoneLoop : List (List RE) → String → Option String
  | [], _ => none
  | p :: ps, t =>
    match reSearch p t with
    | some m => some (pyStrip m)
    | none => phoneLoop ps t

/-- Phone extraction from detail-page text. -/
def phoneFromText (t : String) : Option String :=
  phoneLoop [phonePat1, phonePat2, phonePat3] t

/-- The contact-name cascade: each pattern is searched in order; a match
is accepted only when the stripped group is non-empty and splits into
exactly two whitespace-separated tokens, otherwise the next pattern is
tried. -/
def nameLoop : List (List RE) → String → Option String
  | [], _ => none
  | p :: ps, t =>
    match reSearchGroup1 p t with
    | some g =>
      let n := pyStrip g
      if n ≠ "" ∧ (pySplitWs n).length = 2 then some n else nameLoop ps t
    | none => nameLoop ps t

/-- Contact-name extraction from detail-page text. -/
def nameFromText (t : String) : Option String :=
  nameLoop [namePat1, namePat2, namePat3] t

/-- Email extraction from detail-page text: single pattern, first match
wins. -/
def emailFromText (t : String) : Option String :=
  (reSearch emailPat t).map pyStrip

/-- The extracted contact information.  Every field is optional: a field
left at none means the corresponding key is absent from the Python
dict. -/
structure ContactInfo where
  business_name : Option String := none
  phone_number : Option String := none
  contact_name : Option String := none
  email : Option String := none
deriving DecidableEq, Repr

/-- Core of the contact extractor, taking the text of the title element
(if any) and the whole-page text.  Mirrors the body of the extraction
function: business name from the title split on the separator, then the
phone, name and email cascades.  The try block of the source never
raises in this pure model. -/
def extractCore (title_text : Option String) (text : String) : ContactInfo :=
  let bn :=
    match title_text with
    | some tt =>
      if listContains " - ".toList tt.toList then
        some (pyStrip (String.mk (takeUntilSub " - ".toList tt.toList)))
      else none
    | none => none
  { business_name := bn
    phone_number := phoneFromText text
    contact_name := nameFromText text
    email := emailFromText text }

/-- The contact extractor on raw detail HTML. -/
def extractContact (html : String) : ContactInfo :=
  extractCore (findTitle html) (stripTags html)

/-- Models the Python truthiness test on the contact dict: at least one
key was set. -/
def contactTruthy (ci : ContactInfo) : Bool :=
  ci.business_name.isSome || ci.phone_number.isSome ||
  ci.contact_name.isSome || ci.email.isSome

/-- The apostrophe character, built by code point to keep the file free
of bare apostrophes. -/
def squote : String := String.mk [Char.ofNat 39]

/-- Models the dead computation of the source: json.dumps of the contact
dict with double quotes replaced by single quotes.  The source computes
this value and never uses it. -/
def contactJson (ci : ContactInfo) : String :=
  let item := fun (k v : String) => squote ++ k ++ squote ++ ": " ++ squote ++ v ++ squote
  let items :=
    (match ci.business_name with | some v => [item "business_name" v] | none => []) ++
    (match ci.phone_number with | some v => [item "phone_number" v] | none => []) ++
    (match ci.contact_name with | some v => [item "contact_name" v] | none => []) ++
    (match ci.email with | some v => [item "email" v] | none => [])
  "\x7b" ++ String.intercalate ", " items ++ "\x7d"

/-- The detail-page post-processing of the Bolagsplatsen scraper: when
the extracted contact dict is truthy the source builds contact_json,
sets the comment variable to the EMPTY f-string and replaces the body
close tag by that empty comment, a newline and the close tag; otherwise
the HTML is stored unchanged. -/
def embedDetail (detail_html : String) : String :=
  let ci := extractContact detail_html
  if contactTruthy ci then
    pyReplace detail_html "</body>" ("" ++ "\n</body>")
  else detail_html

/-!  The source scrapers.  Network and browser input is an oracle: a
static fetch maps a URL to a result, the rendered engine maps a URL to
an optional rendered DOM (none models a raised navigation error) and to
the anchor hrefs found on that page.  Each scraper mirrors the
control and exception structure of its Python function. -/

/-- Outcome of one static fetch: a 200 response with decoded body, a
non-200 status, or a raised exception. -/
inductive FetchResult where
  | ok (html : String)
  | httpError (status : Nat)
  | exn
deriving DecidableEq, Repr

/-- Per-source scrape output: raw listing pages and detail pages. -/
structure Fragment where
  pages : List String
  details : List String
deriving DecidableEq, Repr

/-- Oracle for the rendered-browser engine shared by the Objektvision
and Lania scrapers.  The two context flags model whether creating a
fresh browsing context succeeds for the respective source; goto maps a
navigated URL to its rendered content (none models a raised timeout);
links maps a listing URL to the hrefs of all anchor elements on its
rendered page in document order (error models a raised selector
query). -/
structure RenderEnv where
  ovContext : Bool
  laContext : Bool
  goto : String → Option String
  links : String → Except Unit (List String)

/-- The twelve Bolagsplatsen seed URLs, in source order. -/
def bolagsplatsenUrls : List String :=
  ["https://www.bolagsplatsen.se/foretag-till-salu/alla/alla",
   "https://www.bolagsplatsen.se/foretag-till-salu/alla/alla?page=2",
   "https://www.bolagsplatsen.se/foretag-till-salu/alla/alla?page=3",
   "https://www.bolagsplatsen.se/foretag-till-salu/alla/alla?page=4",
   "https://www.bolagsplatsen.se/foretag-till-salu/alla/alla?page=5",
   "https://www.bolagsplatsen.se/foretag-till-salu/internetforetag-e-handel/alla",
   "https://www.bolagsplatsen.se/foretag-till-salu/tjansteforetag/alla",
   "https://www.bolagsplatsen.se/foretag-till-salu/handel/alla",
   "https://www.bolagsplatsen.se/foretag-till-salu/bygg-entreprenad/alla",
   "https://www.bolagsplatsen.se/foretag-till-salu/tillverkning/alla",
   "https://www.bolagsplatsen.se/foretag-till-salu/alla/alla?sort=created_desc",
   "https://www.bolagsplatsen.se/foretag-till-salu/alla/alla?sort=price_asc"]

/-- The Bolagsplatsen detail-link regex: the literal path segment
followed by one or more non-slash characters anchored at the end of the
href.  Matches exactly when the part of the href after its last slash is
non-empty and the text ending at that last slash ends with the literal
segment. -/
def bolagMatch (href : String) : Bool :=
  let r := href.toList.reverse
  let seg := r.takeWhile (· ≠ '/')
  let rest := r.drop seg.length
  !seg.isEmpty && ("/foretag-till-salu/".toList.reverse).isPrefixOf rest

/-- URL resolution of the Bolagsplatsen scraper for hrefs that do not
start with http: root-relative hrefs get the origin prefixed, other
hrefs get the origin and a slash prefixed. -/
def bolagResolve (href : String) : String :=
  if strStartsWith href "/" then "https://www.bolagsplatsen.se" ++ href
  else "https://www.bolagsplatsen.se/" ++ href

/-- Python set insertion, modelled as an insertion-ordered list without
duplicates.  The iteration order of a CPython set is unspecified; no
theorem below depends on the order, only on the multiplicity of
elements. -/
def addUnique (l : List String) (u : String) : List String :=
  if u ∈ l then l else l ++ [u]

/-- The candidate-collection loop of the Bolagsplatsen scraper: keep
hrefs matching the detail regex, skip empty hrefs and hrefs starting
with http, resolve the rest against the origin and insert into the
dedup set. -/
def bolagCollect (hrefs : List String) (acc : List String) : List String :=
  hrefs.foldl
    (fun acc href =>
      if bolagMatch href then
        if href ≠ "" ∧ ¬ strStartsWith href "http" then
          addUnique acc (bolagResolve href)
        else acc
      else acc)
    acc

/-- One iteration of the Bolagsplatsen listing loop: fetch the seed URL,
on a 200 response store the page and collect candidate URLs, on any
failure leave the state unchanged. -/
def bolagStep (fetch : String → FetchResult)
    (st : List String × List String) (url : String) : List String × List String :=
  match fetch url with
  | .ok html => (st.1 ++ [html], bolagCollect (extractHrefs html) st.2)
  | _ => st

/-- The listing phase of the Bolagsplatsen scraper: fetch each seed URL
in order, tolerating per-seed failures. -/
def bolagListing (fetch : String → FetchResult) : List String × List String :=
  bolagsplatsenUrls.foldl (bolagStep fetch) ([], [])

/-- The detail URLs the Bolagsplatsen scraper fetches: the first fifty
members of the dedup set. -/
def bolagDetailUrls (fetch : String → FetchResult) : List String :=
  (bolagListing fetch).2.take 50

/-- The Bolagsplatsen scraper: listing phase, then fetch each selected
detail URL, post-process successful responses and skip failures. -/
def scrape_bolagsplatsen_comprehensive (fetch : String → FetchResult) : Fragment :=
  let st := bolagListing fetch
  { pages := st.1
    details :=
      (st.2.take 50).filterMap
        (fun u =>
          match fetch u with
          | .ok dh => some (embedDetail dh)
          | _ => none) }

/-- The two Objektvision listing URLs, in source order. -/
def ovUrls : List String :=
  ["https://objektvision.se/företag_till_salu",
   "https://objektvision.se/foretag_till_salu"]

/-- The Objektvision anchor selector: href contains one of the two
spellings of the word for company. -/
def ovSelector (h : String) : Bool :=
  listContains "företag".toList h.toList || listContains "foretag".toList h.toList

/-- The per-link detail condition of the Objektvision scraper: a truthy
href containing the till-salu marker. -/
def ovDetailCond (h : String) : Bool :=
  h ≠ "" && listContains "till_salu".toList h.toList

/-- The Objektvision listing loop: navigate each listing URL in turn; on
a navigation failure continue with the next URL; after a successful
navigation store the page; a failing selector query is caught by the
per-URL handler and control continues with the next URL; otherwise take
the first ten selected links, fetch details for those passing the
condition, and stop (break). -/
def ovRun (env : RenderEnv) : List String → Fragment
  | [] => { pages := [], details := [] }
  | url :: rest =>
    match env.goto url with
    | none => ovRun env rest
    | some html =>
      match env.links url with
      | .error _ =>
        let f := ovRun env rest
        { pages := html :: f.pages, details := f.details }
      | .ok allLinks =>
        { pages := [html]
          details :=
            ((allLinks.filter ovSelector).take 10).filterMap
              (fun href =>
                if ovDetailCond href then env.goto (urljoin url href)
                else none) }

/-- The Objektvision scraper: empty when context creation fails. -/
def scrape_objektvision_browser (env : RenderEnv) : Fragment :=
  if env.ovContext then ovRun env ovUrls else { pages := [], details := [] }

/-- The detail URLs the Objektvision scraper navigates to (the URL
sequence handed to goto by the detail loop), mirroring ovRun. -/
def ovRunFetchedUrls (env : RenderEnv) : List String → List String
  | [] => []
  | url :: rest =>
    match env.goto url with
    | none => ovRunFetchedUrls env rest
    | some _ =>
      match env.links url with
      | .error _ => ovRunFetchedUrls env rest
      | .ok allLinks =>
        ((allLinks.filter ovSelector).take 10).filterMap
          (fun href =>
            if ovDetailCond href then some (urljoin url href) else none)

/-- The detail URLs fetched during an Objektvision run. -/
def objektvisionDetailFetchUrls (env : RenderEnv) : List String :=
  if env.ovContext then ovRunFetchedUrls env ovUrls else []

/-- The Lania listing URL. -/
def laniaUrl : String := "https://www.lania.se/foretag-till-salu/"

/-- The Lania anchor selector: href contains the category path. -/
def laniaSelector (h : String) : Bool :=
  listContains "/foretag-till-salu/".toList h.toList

/-- The per-link detail condition of the Lania scraper: a truthy href
not ending with the bare category path. -/
def laniaDetailCond (h : String) : Bool :=
  h ≠ "" && !(strEndsWith h "/foretag-till-salu/")

/-- The Lania scraper: navigate the listing URL (a failure yields the
empty fragment), store the page, query the selector (a raised query is
caught by the outer handler, keeping the page already stored), then take
the first eight selected links and fetch details for those passing the
condition, skipping individual failures. -/
def scrape_lania_browser (env : RenderEnv) : Fragment :=
  if env.laContext then
    match env.goto laniaUrl with
    | none => { pages := [], details := [] }
    | some html =>
      match env.links laniaUrl with
      | .error _ => { pages := [html], details := [] }
      | .ok allLinks =>
        { pages := [html]
          details :=
            ((allLinks.filter laniaSelector).take 8).filterMap
              (fun href =>
                if laniaDetailCond href then
                  env.goto (urljoin "https://www.lania.se" href)
                else none) }
  else { pages := [], details := [] }

/-- The TACTIC detail-link regex: the literal path segment followed by
at least one non-slash character, anywhere in the href (no end
anchor). -/
def tacticMatch (href : String) : Bool :=
  tacticScan href.toList
where
  tacticScan : List Char → Bool
    | [] => false
    | c :: cs =>
      (("/foretag-till-salu/".toList.isPrefixOf (c :: cs)) &&
        (match (c :: cs).drop "/foretag-till-salu/".length with
         | d :: _ => d ≠ '/'
         | [] => false)) || tacticScan cs

/-- The TACTIC scraper: one static listing fetch; on success store the
page, filter anchors by the detail regex, take the first six and fetch
each resolved detail URL, keeping 200 responses. -/
def scrape_tactic_hybrid (fetch : String → FetchResult) : Fragment :=
  match fetch "https://tactic.se/foretag-till-salu/" with
  | .ok html =>
    { pages := [html]
      details :=
        (((extractHrefs html).filter tacticMatch).take 6).filterMap
          (fun href =>
            match fetch (urljoin "https://tactic.se" href) with
            | .ok dh => some dh
            | _ => none) }
  | _ => { pages := [], details := [] }

/-- The SFF scraper: one static fetch of the listing page; the details
sequence is the empty list on every run. -/
def scrape_sff_simple (fetch : String → FetchResult) : Fragment :=
  match fetch "https://www.sffab.se/foretag-till-salu/" with
  | .ok html => { pages := [html], details := [] }
  | _ => { pages := [], details := [] }

/-- The four additional platform URLs, in source order. -/
def additionalUrls : List String :=
  ["https://www.exitpartner.se/foretag-till-salu/",
   "https://bolagsbron.se/category/foretag-til-salu/",
   "http://www.nmk.se/foretag-till-salu/",
   "https://www.stockholmsforetagsmaklare.se/"]

/-- The additional-platforms scraper: fetch each URL, store 200 bodies;
the details list is initialised empty and never appended to. -/
def scrape_additional_platforms (fetch : String → FetchResult) : Fragment :=
  { pages :=
      additionalUrls.filterMap
        (fun u =>
          match fetch u with
          | .ok html => some html
          | _ => none)
    details := [] }

/-- Page and detail counts recorded per source. -/
structure SourceStat where
  pages : Nat
  details : Nat
deriving DecidableEq, Repr

/-- The merged result of one orchestrator run: concatenated pages and
details, the timestamp, the per-source coverage stats (one field per
key of the Python dict) and the static coverage estimate string. -/
structure ScrapeResult where
  pages : List String
  details : List String
  scraped_at : String
  stats_bolagsplatsen : SourceStat
  stats_objektvision : SourceStat
  stats_lania : SourceStat
  stats_tactic : SourceStat
  stats_sff : SourceStat
  stats_additional : SourceStat
  estimated_market_coverage : String
deriving DecidableEq, Repr

/-- The whole-run oracle: the static fetcher, the rendered engine and
the clock value used for the timestamp. -/
structure Env where
  fetch : String → FetchResult
  render : RenderEnv
  now : String

/-- The orchestrator: run the six scrape procedures in fixed order,
concatenate their pages, concatenate the details of all sources except
SFF (whose details are never extended and whose stats record the
literal zero), and report the static coverage sum. -/
def scrape_for_80_percent_coverage (env : Env) : ScrapeResult :=
  let b := scrape_bolagsplatsen_comprehensive env.fetch
  let o := scrape_objektvision_browser env.render
  let l := scrape_lania_browser env.render
  let t := scrape_tactic_hybrid env.fetch
  let s := scrape_sff_simple env.fetch
  let a := scrape_additional_platforms env.fetch
  let estimated_coverage : Nat := 50 + 17 + 8 + 6 + 4 + 5
  { pages := b.pages ++ o.pages ++ l.pages ++ t.pages ++ s.pages ++ a.pages
    details := b.details ++ o.details ++ l.details ++ t.details ++ a.details
    scraped_at := env.now
    stats_bolagsplatsen := ⟨b.pages.length, b.details.length⟩
    stats_objektvision := ⟨o.pages.length, o.details.length⟩
    stats_lania := ⟨l.pages.length, l.details.length⟩
    stats_tactic := ⟨t.pages.length, t.details.length⟩
    stats_sff := ⟨s.pages.length, 0⟩
    stats_additional := ⟨a.pages.length, a.details.length⟩
    estimated_market_coverage := toString estimated_coverage ++ "%" }

/-- The scrape endpoint of the HTTP facade: a failed engine bootstrap
surfaces as a 500 error, otherwise the orchestrator result is returned
with status 200. -/
def scrape_swedish_businesses_comprehensive (bootOk : Bool) (env : Env) :
    Except Nat ScrapeResult :=
  if bootOk then .ok (scrape_for_80_percent_coverage env) else .error 500

/-!  Helper lemmas about the dedup set, the candidate loop, the cap
bounds and the regex engine. -/

/-- Set insertion preserves the no-duplicates invariant. -/
theorem addUnique_nodup (l : List String) (u : String) (h : l.Nodup) :
    (addUnique l u).Nodup := by
  unfold addUnique
  split
  · exact h
  · rename_i hu
    simp [List.nodup_append, h, hu]

/-- The candidate loop preserves the no-duplicates invariant of the
dedup set. -/
theorem bolagCollect_nodup : ∀ (hrefs acc : List String), acc.Nodup →
    (bolagCollect hrefs acc).Nodup := by
  intro hrefs
  induction hrefs with
  | nil => intro acc h; simpa [bolagCollect] using h
  | cons hh hs ih =>
    intro acc h
    have heq : bolagCollect (hh :: hs) acc = bolagCollect hs
        (if bolagMatch hh then
          (if hh ≠ "" ∧ ¬ strStartsWith hh "http" then addUnique acc (bolagResolve hh)
           else acc)
         else acc) := rfl
    rw [heq]
    apply ih
    split
    · split
      · exact addUnique_nodup _ _ h
      · exact h
    · exact h

/-- The whole Bolagsplatsen listing phase keeps the dedup set free of
duplicates. -/
theorem bolagFold_nodup (fetch : String → FetchResult) :
    ∀ (urls : List String) (st : List String × List String), st.2.Nodup →
      (urls.foldl (bolagStep fetch) st).2.Nodup := by
  intro urls
  induction urls with
  | nil => intro st h; simpa using h
  | cons u us ih =>
    intro st h
    rw [List.foldl_cons]
    apply ih
    unfold bolagStep
    split
    · exact bolagCollect_nodup _ _ h
    · exact h

/-- Membership after a set insertion. -/
theorem mem_addUnique (l : List String) (v u : String) (h : u ∈ addUnique l v) :
    u ∈ l ∨ u = v := by
  unfold addUnique at h
  split at h
  · exact Or.inl h
  · rcases List.mem_append.mp h with h1 | h1
    · exact Or.inl h1
    · exact Or.inr (List.mem_singleton.mp h1)

/-- Every member of the collected candidate set either was already in
the accumulator or is the resolution of a matching non-http href of the
input. -/
theorem bolagCollect_mem : ∀ (hrefs acc : List String) (u : String),
    u ∈ bolagCollect hrefs acc →
      u ∈ acc ∨ ∃ h, h ∈ hrefs ∧ bolagMatch h = true ∧ h ≠ "" ∧
        strStartsWith h "http" = false ∧ u = bolagResolve h := by
  intro hrefs
  induction hrefs with
  | nil => intro acc u h; exact Or.inl h
  | cons hh hs ih =>
    intro acc u h
    have heq : bolagCollect (hh :: hs) acc = bolagCollect hs
        (if bolagMatch hh then
          (if hh ≠ "" ∧ ¬ strStartsWith hh "http" then addUnique acc (bolagResolve hh)
           else acc)
         else acc) := rfl
    rw [heq] at h
    rcases ih _ u h with h1 | ⟨g, hg1, hg2, hg3, hg4, hg5⟩
    · split at h1
      · rename_i hm
        split at h1
        · rename_i hcond
          rcases mem_addUnique _ _ _ h1 with h2 | h2
          · exact Or.inl h2
          · exact Or.inr ⟨hh, List.mem_cons_self _ _, hm, hcond.1,
              by simpa using hcond.2, h2⟩
        · exact Or.inl h1
      · exact Or.inl h1
    · exact Or.inr ⟨g, List.mem_cons_of_mem _ hg1, hg2, hg3, hg4, hg5⟩

/-- The Objektvision detail list never exceeds ten entries. -/
theorem ovRun_details_le (env : RenderEnv) :
    ∀ urls, (ovRun env urls).details.length ≤ 10 := by
  intro urls
  induction urls with
  | nil => simp [ovRun]
  | cons u us ih =>
    unfold ovRun
    cases hg : env.goto u with
    | none => exact ih
    | some html =>
      cases hl : env.links u with
      | error e => simpa using ih
      | ok allLinks =>
        simp only
        exact le_trans (List.length_filterMap_le _ _) (List.length_take_le _ _)

/-- A successful match of a literal-headed pattern starts with the
literal. -/
theorem matchRE_lit_shape (l : List Char) (ps : List RE) (cs : List Char)
    (r : List Char × List Nat) (h : matchRE (.lit l :: ps) cs = some r) :
    ∃ m, r.1 = l ++ m := by
  unfold matchRE at h
  split at h
  · cases hm : matchRE ps (cs.drop l.length) with
    | none => rw [hm] at h; cases h
    | some r' =>
      rw [hm] at h
      cases h
      exact ⟨r'.1, rfl⟩
  · cases h

/-- A successful class-repetition attempt consumed between lo and k
characters of the input before the continuation succeeded. -/
theorem classTry_shape (next : List Char → Option (List Char × List Nat))
    (lo : Nat) (cs : List Char) :
    ∀ (k : Nat) (r : List Char × List Nat), classTry next lo cs k = some r →
      ∃ j r', lo ≤ j ∧ j ≤ k ∧ next (cs.drop j) = some r' ∧
        r.1 = cs.take j ++ r'.1 := by
  intro k
  induction k with
  | zero =>
    intro r h
    unfold classTry at h
    split at h
    · cases h
    · rename_i hlo
      cases hn : next (cs.drop 0) with
      | none => rw [hn] at h; cases h
      | some r' =>
        obtain ⟨m, ks⟩ := r'
        rw [hn] at h
        cases h
        exact ⟨0, (m, ks), by omega, Nat.le_refl 0, hn, rfl⟩
  | succ k ih =>
    intro r h
    unfold classTry at h
    split at h
    · cases h
    · rename_i hlo
      cases hn : next (cs.drop (k + 1)) with
      | none =>
        rw [hn] at h
        obtain ⟨j, r', h1, h2, h3, h4⟩ := ih r h
        exact ⟨j, r', h1, Nat.le_succ_of_le h2, h3, h4⟩
      | some r' =>
        obtain ⟨m, ks⟩ := r'
        rw [hn] at h
        cases h
        exact ⟨k + 1, (m, ks), by omega, Nat.le_refl _, hn, rfl⟩

/-- A successful match of a class-headed pattern consumed at least lo
leading class characters. -/
theorem matchRE_cls_shape (p : Char → Bool) (lo : Nat) (hi : Option Nat)
    (ps : List RE) (cs : List Char) (r : List Char × List Nat)
    (h : matchRE (.cls p lo hi :: ps) cs = some r) :
    ∃ j m, lo ≤ j ∧ j ≤ (cs.takeWhile p).length ∧ r.1 = cs.take j ++ m := by
  unfold matchRE at h
  simp only at h
  obtain ⟨j, r', h1, h2, h3, h4⟩ := classTry_shape _ _ _ _ _ h
  refine ⟨j, r'.1, h1, ?_, h4⟩
  cases hi with
  | none => simpa using h2
  | some hb => exact le_trans (by simpa using h2) (Nat.min_le_right _ _)

/-- A non-empty class-constrained prefix forces a class-satisfying head
character. -/
theorem take_head_sat (p : Char → Bool) (cs : List Char) (j : Nat)
    (h1 : 1 ≤ j) (h2 : j ≤ (cs.takeWhile p).length) :
    ∃ c cs', cs = c :: cs' ∧ p c = true := by
  cases cs with
  | nil => simp at h2; omega
  | cons c cs' =>
    by_cases hp : p c = true
    · exact ⟨c, cs', rfl, hp⟩
    · rw [List.takeWhile_cons] at h2
      simp [hp] at h2
      omega

/-- Any successful search result is a successful match at some suffix. -/
theorem searchFrom_exists (p : List RE) :
    ∀ (cs : List Char) (r : List Char × List Nat), searchFrom p cs = some r →
      ∃ cs', matchRE p cs' = some r := by
  intro cs
  induction cs with
  | nil => intro r h; exact ⟨[], h⟩
  | cons c cs ih =>
    intro r h
    unfold searchFrom at h
    cases hm : matchRE p (c :: cs) with
    | some r' =>
      rw [hm] at h
      simp only at h
      exact ⟨c :: cs, by rw [hm, h]⟩
    | none => rw [hm] at h; exact ih r h

/-- A character failing the strip class survives the head drop. -/
theorem mem_dropWhile_of_not (p : Char → Bool) (c : Char) (hc : p c = false) :
    ∀ l : List Char, c ∈ l → c ∈ l.dropWhile p := by
  intro l
  induction l with
  | nil => simp
  | cons a l ih =>
    intro hm
    rw [List.dropWhile_cons]
    by_cases hp : p a = true
    · simp only [hp, if_true]
      apply ih
      rcases List.mem_cons.mp hm with h | h
      · subst h; rw [hp] at hc; cases hc
      · exact h
    · simp only [hp, if_false]
      exact hm

/-- Stripping cannot empty a list that holds a non-whitespace
character. -/
theorem pyStripL_ne_nil (l : List Char) (c : Char) (hm : c ∈ l)
    (hc : pyWs c = false) : pyStripL l ≠ [] := by
  unfold pyStripL
  apply List.ne_nil_of_mem (a := c)
  rw [List.mem_reverse]
  apply mem_dropWhile_of_not _ _ hc
  rw [List.mem_reverse]
  exact mem_dropWhile_of_not _ _ hc _ hm

/-- The stripped form of a list holding a non-whitespace character is a
non-empty string. -/
theorem pyStrip_mk_ne_empty (l : List Char) (c : Char) (hm : c ∈ l)
    (hc : pyWs c = false) : pyStrip (String.mk l) ≠ "" := by
  unfold pyStrip
  intro he
  have h1 : pyStripL l = [] := by
    have h2 := congrArg String.toList he
    simpa using h2
  exact pyStripL_ne_nil l c hm hc h1

/-- The whitespace class is an explicit six-character set. -/
theorem pyWs_cases (c : Char) (h : pyWs c = true) :
    c = ' ' ∨ c = '\t' ∨ c = '\n' ∨ c = '\r' ∨ c = '\x0b' ∨ c = '\x0c' := by
  simp only [pyWs, Bool.or_eq_true, beq_iff_eq] at h
  tauto

/-- Digits are not whitespace. -/
theorem digit_not_ws (c : Char) (h : c.isDigit = true) : pyWs c = false := by
  cases hw : pyWs c
  · rfl
  · rcases pyWs_cases c hw with h1 | h1 | h1 | h1 | h1 | h1 <;>
      (subst h1; exact absurd h (by decide))

/-- Characters of the email local-part class are not whitespace. -/
theorem emailLocal_not_ws (c : Char) (h : emailLocalCls c = true) :
    pyWs c = false := by
  cases hw : pyWs c
  · rfl
  · rcases pyWs_cases c hw with h1 | h1 | h1 | h1 | h1 | h1 <;>
      (subst h1; exact absurd h (by decide))

/-- Searching a literal-headed pattern whose literal starts with a
non-whitespace character yields a match that strips to a non-empty
string. -/
theorem reSearch_lit_strip_ne (c : Char) (cs0 : List Char) (ps : List RE)
    (hc : pyWs c = false) (t m : String)
    (h : reSearch (.lit (c :: cs0) :: ps) t = some m) : pyStrip m ≠ "" := by
  unfold reSearch at h
  cases hs : searchFrom (.lit (c :: cs0) :: ps) t.toList with
  | none => rw [hs] at h; cases h
  | some r =>
    rw [hs] at h
    simp only [Option.map] at h
    cases h
    obtain ⟨cs', hmx⟩ := searchFrom_exists _ _ _ hs
    obtain ⟨m', hshape⟩ := matchRE_lit_shape (c :: cs0) ps cs' r hmx
    apply pyStrip_mk_ne_empty r.1 c _ hc
    rw [hshape]
    exact List.mem_append_left _ (List.mem_cons_self _ _)

/-- Searching a class-headed pattern with positive lower bound and a
non-whitespace class yields a match that strips to a non-empty
string. -/
theorem reSearch_cls_strip_ne (p : Char → Bool) (lo : Nat) (hi : Option Nat)
    (ps : List RE) (hlo : 1 ≤ lo) (hp : ∀ c, p c = true → pyWs c = false)
    (t m : String) (h : reSearch (.cls p lo hi :: ps) t = some m) :
    pyStrip m ≠ "" := by
  unfold reSearch at h
  cases hs : searchFrom (.cls p lo hi :: ps) t.toList with
  | none => rw [hs] at h; cases h
  | some r =>
    rw [hs] at h
    simp only [Option.map] at h
    cases h
    obtain ⟨cs', hmx⟩ := searchFrom_exists _ _ _ hs
    obtain ⟨j, m', h1, h2, h3⟩ := matchRE_cls_shape p lo hi ps cs' r hmx
    obtain ⟨ch, cs'', hceq, hcp⟩ := take_head_sat p cs' j (le_trans hlo h1) h2
    apply pyStrip_mk_ne_empty r.1 ch _ (hp ch hcp)
    rw [h3, hceq]
    obtain ⟨j', rfl⟩ : ∃ j', j = j' + 1 := ⟨j - 1, by omega⟩
    rw [List.take_succ_cons]
    exact List.mem_append_left _ (List.mem_cons_self _ _)

/-- Every phone number produced by the cascade is non-empty. -/
theorem phoneFromText_ne_empty (t s : String) (h : phoneFromText t = some s) :
    s ≠ "" := by
  unfold phoneFromText phoneLoop at h
  cases h1 : reSearch phonePat1 t with
  | some m =>
    rw [h1] at h
    simp only at h
    cases h
    exact reSearch_lit_strip_ne '+' ['4', '6'] _ (by decide) t m h1
  | none =>
    rw [h1] at h
    simp only at h
    unfold phoneLoop at h
    cases h2 : reSearch phonePat2 t with
    | some m =>
      rw [h2] at h
      simp only at h
      cases h
      exact reSearch_lit_strip_ne '0' [] _ (by decide) t m h2
    | none =>
      rw [h2] at h
      simp only at h
      unfold phoneLoop at h
      cases h3 : reSearch phonePat3 t with
      | some m =>
        rw [h3] at h
        simp only at h
        cases h
        exact reSearch_cls_strip_ne Char.isDigit 3 (some 3) _ (by omega)
          digit_not_ws t m h3
      | none => rw [h3] at h; cases h

/-- Every email produced by the extractor is non-empty. -/
theorem emailFromText_ne_empty (t s : String) (h : emailFromText t = some s) :
    s ≠ "" := by
  unfold emailFromText at h
  cases h1 : reSearch emailPat t with
  | none => rw [h1] at h; cases h
  | some m =>
    rw [h1] at h
    simp only [Option.map] at h
    cases h
    exact reSearch_cls_strip_ne emailLocalCls 1 none _ (by omega)
      emailLocal_not_ws t m h1

/-- Every name accepted by the cascade is non-empty and splits into
exactly two whitespace-separated tokens: the acceptance check of the
source guards both properties. -/
theorem nameLoop_props : ∀ (pats : List (List RE)) (t n : String),
    nameLoop pats t = some n → n ≠ "" ∧ (pySplitWs n).length = 2 := by
  intro pats
  induction pats with
  | nil => intro t n h; cases h
  | cons p ps ih =>
    intro t n h
    unfold nameLoop at h
    cases hg : reSearchGroup1 p t with
    | none => rw [hg] at h; exact ih t n h
    | some g =>
      rw [hg] at h
      simp only at h
      split at h
      · rename_i hcond
        cases h
        exact hcond
      · exact ih t n h

/-!  Behaviour under total failure of the fetch and render oracles. -/

/-- With every static fetch raising, the Bolagsplatsen scraper returns
the empty fragment. -/
theorem bolag_allfail (fetch : String → FetchResult)
    (hf : ∀ u, fetch u = FetchResult.exn) :
    scrape_bolagsplatsen_comprehensive fetch = ⟨[], []⟩ := by
  have hl : bolagListing fetch = ([], []) := by
    simp [bolagListing, bolagsplatsenUrls, bolagStep, hf]
  simp [scrape_bolagsplatsen_comprehensive, hl]

/-- With every navigation raising, the Objektvision scraper returns the
empty fragment. -/
theorem ov_allfail (env : RenderEnv) (hg : ∀ u, env.goto u = none) :
    scrape_objektvision_browser env = ⟨[], []⟩ := by
  unfold scrape_objektvision_browser
  split
  · simp [ovUrls, ovRun, hg]
  · rfl

/-- With every navigation raising, the Lania scraper returns the empty
fragment. -/
theorem la_allfail (env : RenderEnv) (hg : ∀ u, env.goto u = none) :
    scrape_lania_browser env = ⟨[], []⟩ := by
  unfold scrape_lania_browser
  split
  · simp [hg]
  · rfl

/-- With every static fetch raising, the TACTIC scraper returns the
empty fragment. -/
theorem tactic_allfail (fetch : String → FetchResult)
    (hf : ∀ u, fetch u = FetchResult.exn) :
    scrape_tactic_hybrid fetch = ⟨[], []⟩ := by
  simp [scrape_tactic_hybrid, hf]

/-- With every static fetch raising, the SFF scraper returns the empty
fragment. -/
theorem sff_allfail (fetch : String → FetchResult)
    (hf : ∀ u, fetch u = FetchResult.exn) :
    scrape_sff_simple fetch = ⟨[], []⟩ := by
  simp [scrape_sff_simple, hf]

/-- With every static fetch raising, the additional-platforms scraper
returns the empty fragment. -/
theorem additional_allfail (fetch : String → FetchResult)
    (hf : ∀ u, fetch u = FetchResult.exn) :
    scrape_additional_platforms fetch = ⟨[], []⟩ := by
  simp [scrape_additional_platforms, additionalUrls, hf]

/-!  Concrete inputs for the counterexamples and evaluations. -/

/-- A Bolagsplatsen detail page with extractable business name, contact
name and phone number. -/
def c1Html : String :=
  "<html><title>Acme AB - Till salu</title><body><p>Kontakt: Anna Svensson</p><p>Tel: +46 70 123 45 67</p></body></html>"

/-- What the scraper actually stores for that page: the original HTML
with only a newline inserted before the body close tag. -/
def c1Stored : String :=
  "<html><title>Acme AB - Till salu</title><body><p>Kontakt: Anna Svensson</p><p>Tel: +46 70 123 45 67</p>\n</body></html>"

/-- C1: contact extraction on the page succeeds and returns a non-empty
ContactInfo, yet the stored detail HTML is the input with only a newline
inserted: the serialized contact dict (the value the source computes and
drops) does not occur in the stored page, so the contact information is
not embedded into the returned details.  The inline comment of the
source announces an HTML comment with the contact info; the code builds
the empty comment instead. -/
theorem c1_contact_discarded :
    contactTruthy (extractContact c1Html) = true ∧
    (extractContact c1Html).business_name = some "Acme AB" ∧
    (extractContact c1Html).phone_number = some "+46 70 123 45 67" ∧
    (extractContact c1Html).contact_name = some "Anna Svensson" ∧
    embedDetail c1Html = c1Stored ∧
    listContains (contactJson (extractContact c1Html)).toList c1Stored.toList = false := by
  refine ⟨by decide, by decide, by decide, by decide, by decide, by decide⟩

/-- A detail URL that appears twice among the anchors of the
Objektvision listing page. -/
def ovDupUrl : String := "https://objektvision.se/foretag_till_salu/abc"

/-- A render oracle describing a listing page that carries the same
detail link twice. -/
def c2Env : RenderEnv :=
  { ovContext := true
    laContext := true
    goto := fun u =>
      if u = "https://objektvision.se/företag_till_salu" then some "<html>ov</html>"
      else if u = ovDupUrl then some "<html>detail</html>" else none
    links := fun u =>
      if u = "https://objektvision.se/företag_till_salu" then .ok [ovDupUrl, ovDupUrl]
      else .error () }

/-- C2 counterexample: on an Objektvision run whose listing page lists
the same detail URL twice, that URL is navigated to twice and two detail
records are produced — the Objektvision scraper has no dedup set, so
the claim fails for this source. -/
theorem c2_objektvision_duplicate :
    (objektvisionDetailFetchUrls c2Env).count ovDupUrl = 2 ∧
    (scrape_objektvision_browser c2Env).details =
      ["<html>detail</html>", "<html>detail</html>"] := by
  refine ⟨by decide, by decide⟩

/-- C2 (amended): the Bolagsplatsen source deduplicates; the list of
detail URLs it fetches never contains a URL twice, for every fetch
oracle. -/
theorem c2_bolagsplatsen_dedup (fetch : String → FetchResult) :
    (bolagDetailUrls fetch).Nodup :=
  List.Nodup.sublist (List.take_sublist _ _)
    (bolagFold_nodup fetch bolagsplatsenUrls ([], []) (by simp))

/-- The anchors of the Lania counterexample listing page: the bare
category root followed by nine distinct detail links. -/
def c3Links : List String :=
  laniaUrl :: (List.range 9).map
    (fun i => "https://www.lania.se/foretag-till-salu/obj" ++ toString i)

/-- A render oracle for the Lania counterexample: the listing page
carries the category root and nine detail candidates, and every detail
navigation succeeds. -/
def c3Env : RenderEnv :=
  { ovContext := false
    laContext := true
    goto := fun u =>
      if u = laniaUrl then some "<html>lania</html>"
      else if strStartsWith u "https://www.lania.se/foretag-till-salu/obj" then
        some "<html>detail</html>"
      else none
    links := fun u => if u = laniaUrl then .ok c3Links else .error () }

/-- C3 counterexample: the Lania page offers nine candidates passing the
detail filter, one more than the cap of eight, and every fetch succeeds,
yet only seven detail records are produced: the cap is applied to the
raw selector results before the category root is filtered out, so the
root consumes one of the eight slots. -/
theorem c3_lania_cap_shortfall :
    (c3Links.filter laniaDetailCond).length = 9 ∧
    ((c3Links.filter laniaSelector).length = 10) ∧
    (scrape_lania_browser c3Env).details.length = 7 := by
  refine ⟨by decide, by decide, by decide⟩

/-- C3 (amended): the number of detail records never exceeds the cap of
the source — fifty for Bolagsplatsen, ten for Objektvision, eight for
Lania, six for TACTIC — for every oracle. -/
theorem c3_cap_bounds (fetch : String → FetchResult) (env : RenderEnv) :
    (scrape_bolagsplatsen_comprehensive fetch).details.length ≤ 50 ∧
    (scrape_objektvision_browser env).details.length ≤ 10 ∧
    (scrape_lania_browser env).details.length ≤ 8 ∧
    (scrape_tactic_hybrid fetch).details.length ≤ 6 := by
  refine ⟨?_, ?_, ?_, ?_⟩
  · simp only [scrape_bolagsplatsen_comprehensive]
    exact le_trans (List.length_filterMap_le _ _) (List.length_take_le _ _)
  · unfold scrape_objektvision_browser
    split
    · exact ovRun_details_le env ovUrls
    · simp
  · unfold scrape_lania_browser
    split
    · cases hg : env.goto laniaUrl with
      | none => simp
      | some html =>
        cases hl : env.links laniaUrl with
        | error e => simp
        | ok allLinks =>
          simp only
          exact le_trans (List.length_filterMap_le _ _) (List.length_take_le _ _)
    · simp
  · unfold scrape_tactic_hybrid
    split
    · simp only
      exact le_trans (List.length_filterMap_le _ _) (List.length_take_le _ _)
    · simp

/-- A render oracle for the Lania partial-fragment counterexample: the
listing navigation succeeds, then the selector query raises. -/
def c4Env : RenderEnv :=
  { ovContext := false
    laContext := true
    goto := fun u => if u = laniaUrl then some "<html>lania</html>" else none
    links := fun _ => .error () }

/-- C4 counterexample: when the Lania scrape raises (the selector query
fails after the listing page was stored), the failure is caught inside
the source scraper, not at the orchestrator, and the fragment keeps the
already-collected page: it is not empty as the claim states. -/
theorem c4_lania_partial_fragment :
    scrape_lania_browser c4Env = { pages := ["<html>lania</html>"], details := [] } ∧
    (scrape_lania_browser c4Env).pages ≠ [] := by
  refine ⟨by decide, by decide⟩

/-- C4 (amended): failures are absorbed source by source; when every
static fetch and every navigation raises, the orchestrator still
returns the complete result object with empty collections, zero counts
and the static coverage string, and the facade returns it as a success
rather than an error. -/
theorem c4_failure_isolation (env : Env)
    (hf : ∀ u, env.fetch u = FetchResult.exn)
    (hg : ∀ u, env.render.goto u = none) :
    scrape_for_80_percent_coverage env =
      { pages := []
        details := []
        scraped_at := env.now
        stats_bolagsplatsen := ⟨0, 0⟩
        stats_objektvision := ⟨0, 0⟩
        stats_lania := ⟨0, 0⟩
        stats_tactic := ⟨0, 0⟩
        stats_sff := ⟨0, 0⟩
        stats_additional := ⟨0, 0⟩
        estimated_market_coverage := "90%" } ∧
    scrape_swedish_businesses_comprehensive true env =
      .ok (scrape_for_80_percent_coverage env) := by
  have hb := bolag_allfail env.fetch hf
  have ho := ov_allfail env.render hg
  have hl := la_allfail env.render hg
  have ht := tactic_allfail env.fetch hf
  have hs := sff_allfail env.fetch hf
  have ha := additional_allfail env.fetch hf
  constructor
  · simp only [scrape_for_80_percent_coverage, hb, ho, hl, ht, hs, ha]
    rfl
  · rfl

/-- The oracle in which every fetch and every navigation fails. -/
def allFailEnv : Env :=
  { fetch := fun _ => FetchResult.exn
    render :=
      { ovContext := true
        laContext := true
        goto := fun _ => none
        links := fun _ => .error () }
    now := "2026-01-01T00:00:00" }

/-- Witness for C4: the isolation theorem applied to the concrete
all-failing oracle. -/
theorem c4_failure_isolation_witness :
    scrape_for_80_percent_coverage allFailEnv =
      { pages := []
        details := []
        scraped_at := allFailEnv.now
        stats_bolagsplatsen := ⟨0, 0⟩
        stats_objektvision := ⟨0, 0⟩
        stats_lania := ⟨0, 0⟩
        stats_tactic := ⟨0, 0⟩
        stats_sff := ⟨0, 0⟩
        stats_additional := ⟨0, 0⟩
        estimated_market_coverage := "90%" } ∧
    scrape_swedish_businesses_comprehensive true allFailEnv =
      .ok (scrape_for_80_percent_coverage allFailEnv) :=
  c4_failure_isolation allFailEnv (fun _ => rfl) (fun _ => rfl)

/-- C5: the reported market coverage of every run is the static sum of
the configured per-source weights, rendered as the string 90 percent,
independent of the fetched pages, details and coverage stats of the
run. -/
theorem c5_static_coverage (env : Env) :
    (scrape_for_80_percent_coverage env).estimated_market_coverage =
      toString ((50 : Nat) + 17 + 8 + 6 + 4 + 5) ++ "%" ∧
    (scrape_for_80_percent_coverage env).estimated_market_coverage = "90%" :=
  ⟨rfl, rfl⟩

/-- An absolute detail URL of the Bolagsplatsen domain that matches the
detail-link regex. -/
def c6AbsHref : String := "https://www.bolagsplatsen.se/foretag-till-salu/abc123"

/-- C6 counterexample: an href that is already an absolute URL and
matches the detail pattern is not passed through unchanged — it is
skipped entirely by the guard that excludes hrefs starting with http,
so no candidate at all results from it. -/
theorem c6_absolute_href_skipped :
    bolagMatch c6AbsHref = true ∧
    bolagCollect [c6AbsHref] [] = [] := by
  refine ⟨by decide, by decide⟩

/-- C6 (amended): every candidate kept by the listing extraction comes
from a non-empty matching href that does not start with http; a
root-relative href is prefixed with the origin and any other kept href
is prefixed with the origin and a slash, so every candidate URL starts
with the source origin. -/
theorem c6_resolution_shape (hrefs : List String) (u : String)
    (hu : u ∈ bolagCollect hrefs []) :
    ∃ h, h ∈ hrefs ∧ bolagMatch h = true ∧ h ≠ "" ∧
      strStartsWith h "http" = false ∧
      ((strStartsWith h "/" = true ∧ u = "https://www.bolagsplatsen.se" ++ h) ∨
       (strStartsWith h "/" = false ∧ u = "https://www.bolagsplatsen.se/" ++ h)) := by
  rcases bolagCollect_mem hrefs [] u hu with h1 | ⟨h, hh1, hh2, hh3, hh4, hh5⟩
  · cases h1
  · refine ⟨h, hh1, hh2, hh3, hh4, ?_⟩
    unfold bolagResolve at hh5
    by_cases hsl : strStartsWith h "/" = true
    · rw [hsl] at hh5
      simp only [if_true] at hh5
      exact Or.inl ⟨hsl, hh5⟩
    · have hsl' : strStartsWith h "/" = false := by
        cases hx : strStartsWith h "/"
        · rfl
        · exact absurd hx hsl
      rw [hsl'] at hh5
      simp only [Bool.false_eq_true, if_false] at hh5
      exact Or.inr ⟨hsl', hh5⟩

/-- Witness for C6: the resolution theorem applied to a concrete
root-relative href and its resolved candidate. -/
theorem c6_resolution_witness :
    ∃ h, h ∈ ["/foretag-till-salu/abc"] ∧ bolagMatch h = true ∧ h ≠ "" ∧
      strStartsWith h "http" = false ∧
      ((strStartsWith h "/" = true ∧
          "https://www.bolagsplatsen.se/foretag-till-salu/abc" =
            "https://www.bolagsplatsen.se" ++ h) ∨
       (strStartsWith h "/" = false ∧
          "https://www.bolagsplatsen.se/foretag-till-salu/abc" =
            "https://www.bolagsplatsen.se/" ++ h)) :=
  c6_resolution_shape ["/foretag-till-salu/abc"]
    "https://www.bolagsplatsen.se/foretag-till-salu/abc" (by decide)

/-- C7: the phone cascade tries the international pattern first: when
it matches anywhere in the text, its stripped match is the extracted
phone number and no later pattern is consulted; when it fails, the
leading-zero pattern is next; on the text holding both an international
number and a leading-zero national number the international match is
returned. -/
theorem c7_phone_cascade :
    (∀ t m, reSearch phonePat1 t = some m →
      phoneFromText t = some (pyStrip m)) ∧
    (∀ t m, reSearch phonePat1 t = none → reSearch phonePat2 t = some m →
      phoneFromText t = some (pyStrip m)) ∧
    phoneFromText "Ring +46 70 123 45 67 eller 08-123 45 67" =
      some "+46 70 123 45 67" := by
  refine ⟨?_, ?_, by decide⟩
  · intro t m h
    simp [phoneFromText, phoneLoop, h]
  · intro t m h1 h2
    simp [phoneFromText, phoneLoop, h1, h2]

/-- Witness for C7: the first-pattern clause applied to a concrete
international number. -/
theorem c7_phone_cascade_witness :
    phoneFromText "+46 8 555 66 77" = some (pyStrip "+46 8 555 66 77") :=
  c7_phone_cascade.1 "+46 8 555 66 77" "+46 8 555 66 77" (by decide)

/-- C8: the labelled Kontakt text yields the two-token name, the bare
four-capitalized-token text with no label and no phone-like token
yields no name, and every accepted name consists of exactly two
whitespace-separated tokens. -/
theorem c8_contact_name :
    nameFromText "Kontakt: Anna Svensson" = some "Anna Svensson" ∧
    nameFromText "Anna Svensson Bengtsson Karlsson" = none ∧
    (∀ t n, nameFromText t = some n → n ≠ "" ∧ (pySplitWs n).length = 2) := by
  refine ⟨by decide, by decide, ?_⟩
  intro t n h
  exact nameLoop_props _ t n h

/-- Witness for C8: the two-token clause applied to the accepted name
of the labelled text. -/
theorem c8_contact_name_witness :
    "Anna Svensson" ≠ "" ∧ (pySplitWs "Anna Svensson").length = 2 :=
  c8_contact_name.2.2 "Kontakt: Anna Svensson" "Anna Svensson" (by decide)

/-- C9 counterexample: a title whose left segment before the separator
strips to nothing makes the extractor store the empty string as the
business name — the claim that no field is ever set to the empty
string fails. -/
theorem c9_empty_business_name :
    (extractCore (some " - Till salu") "").business_name = some "" := by
  decide

/-- C9 (amended): the phone number, contact name and email fields are
never set to the empty string and absence leaves them unset; the
business name, however, is stored exactly when the title text contains
the separator, with no non-emptiness check on the stripped left
segment. -/
theorem c9_field_discipline (ti : Option String) (t : String) :
    ((extractCore ti t).phone_number.all fun s => !(s == "")) = true ∧
    ((extractCore ti t).contact_name.all fun s => !(s == "")) = true ∧
    ((extractCore ti t).email.all fun s => !(s == "")) = true ∧
    (extractCore ti t).business_name.isSome =
      (match ti with
       | some tt => listContains " - ".toList tt.toList
       | none => false) := by
  refine ⟨?_, ?_, ?_, ?_⟩
  · cases hph : (extractCore ti t).phone_number with
    | none => rfl
    | some s =>
      have hne := phoneFromText_ne_empty t s hph
      simp [Option.all, hne]
  · cases hnm : (extractCore ti t).contact_name with
    | none => rfl
    | some s =>
      have hne := (nameLoop_props _ t s hnm).1
      simp [Option.all, hne]
  · cases hem : (extractCore ti t).email with
    | none => rfl
    | some s =>
      have hne := emailFromText_ne_empty t s hem
      simp [Option.all, hne]
  · cases ti with
    | none => rfl
    | some tt =>
      show (if listContains " - ".toList tt.toList = true then
          some (pyStrip (String.mk (takeUntilSub " - ".toList tt.toList)))
        else none).isSome = listContains " - ".toList tt.toList
      cases hc : listContains " - ".toList tt.toList
      · simp
      · simp

/-- C10: the SFF scraper and the additional-platforms scraper never
produce detail records, the SFF coverage stat records the literal zero,
and the merged details of every run come from the four sources
Bolagsplatsen, Objektvision, Lania and TACTIC alone. -/
theorem c10_only_four_sources (fetch : String → FetchResult) (env : Env) :
    (scrape_sff_simple fetch).details = [] ∧
    (scrape_additional_platforms fetch).details = [] ∧
    (scrape_for_80_percent_coverage env).stats_sff.details = 0 ∧
    (scrape_for_80_percent_coverage env).details =
      (scrape_bolagsplatsen_comprehensive env.fetch).details ++
      (scrape_objektvision_browser env.render).details ++
      (scrape_lania_browser env.render).details ++
      (scrape_tactic_hybrid env.fetch).details := by
  refine ⟨?_, rfl, rfl, ?_⟩
  · unfold scrape_sff_simple
    split
    · rfl
    · rfl
  · simp [scrape_for_80_percent_coverage, scrape_additional_platforms]
